import Mathlib

/-
Verification of the pyexec process-execution engine (github.com/liuzl/pyexec).

The Go sources are shallowly embedded: process-wide inputs (environment
variables, the filesystem as seen through os.Stat, os.Getwd, os.Executable,
runtime.Caller, exec.LookPath) are gathered into an explicit `Sys` record,
and each Go function becomes a pure Lean function over that record.  The
path manipulation follows Go's path/filepath for Unix ('/' separator, ':'
list separator, no volume names).  Strings are handled through their
character lists to keep every definition kernel-executable.
-/

namespace Pyexec

/-! ## String helpers (Go strings / path list semantics, character-level) -/

/-- Splitting a character list at a separator, semantics of Go strings.Split
with a one-character separator: the empty list yields one empty field, and
adjacent separators yield empty fields. -/
def splitCharAux (sep : Char) : List Char → List (List Char)
  | [] => [[]]
  | c :: cs =>
    let rest := splitCharAux sep cs
    if c = sep then [] :: rest
    else match rest with
      | r :: rs => (c :: r) :: rs
      | [] => [[c]]

/-- Go strings.Split s sep for a one-character separator. -/
def splitChar (sep : Char) (s : String) : List String :=
  (splitCharAux sep s.data).map String.mk

/-- Joining strings with a separator string, Go strings.Join. -/
def joinWith (sep : String) : List String → String
  | [] => ("")
  | [x] => x
  | x :: xs => x ++ sep ++ joinWith sep xs

/-- Boolean check that `pat` is a prefix of `s` (character lists). -/
def hasPre : List Char → List Char → Bool
  | [], _ => true
  | _ :: _, [] => false
  | p :: ps, c :: cs => p = c && hasPre ps cs

/-- Boolean substring containment on character lists, used to state the Go
tests' strings.Contains checks about error messages. -/
def containsSubB : List Char → List Char → Bool
  | pat, [] => hasPre pat []
  | pat, c :: cs => hasPre pat (c :: cs) || containsSubB pat cs

/-- Substring containment lifted to String: strings.Contains s pat. -/
def strContainsB (s pat : String) : Bool := containsSubB pat.data s.data

/-! ## path/filepath model (Unix rules) -/

/-- Go filepath.IsAbs on Unix: the path starts with '/'. -/
def isAbs (path : String) : Bool :=
  match path.data with
  | [] => false
  | c :: _ => c = '/'

/-- One step of Go filepath.Clean's element processing: push a path element
onto the (reversed) stack of output elements.  "" and "." are dropped, ".."
pops a previous real element, cannot escape the root of a rooted path, and
is kept when a relative path begins with parent references. -/
def pushElem (rooted : Bool) (stack : List String) (e : String) : List String :=
  if e = ("") ∨ e = (".") then stack
  else if e = ("..") then
    match stack with
    | [] => if rooted then [] else [("..")]
    | top :: rest => if top = ("..") then e :: stack else rest
  else e :: stack

/-- Go filepath.Clean for Unix paths: lexical simplification removing empty
elements, ".", and resolvable "..", returning "." for an empty result. -/
def clean (path : String) : String :=
  if path = ("") then (".")
  else
    let rooted := isAbs path
    let stack := (splitChar '/' path).foldl (pushElem rooted) []
    let body := joinWith ("/") stack.reverse
    if rooted then (if body = ("") then ("/") else ("/") ++ body)
    else (if body = ("") then (".") else body)

/-- Go filepath.Join: drop leading empty elements, join the rest with '/',
and Clean the result; all-empty input gives "". -/
def joinPath (elems : List String) : String :=
  let rest := elems.dropWhile (fun e => e == (""))
  if rest.isEmpty then ("") else clean (joinWith ("/") rest)

/-- filepath.Join with two elements. -/
def joinPath2 (a b : String) : String := joinPath [a, b]

/-- filepath.Join with three elements. -/
def joinPath3 (a b c : String) : String := joinPath [a, b, c]

/-- Go filepath.Dir: everything up to and including the final '/', Cleaned;
"." when the path has no slash. -/
def dirPath (path : String) : String :=
  clean (String.mk ((path.data.reverse.dropWhile (fun c => c != '/')).reverse))

/-- Go filepath.SplitList on Unix: ':'-separated, empty input gives no
entries, empty entries are preserved. -/
def splitList (s : String) : List String :=
  if s = ("") then [] else splitChar ':' s

/-! ## Process-wide inputs -/

/-- The process-wide inputs read by the engine.  `getenv` is os.Getenv
(returning "" when unset); `stat` is os.Stat collapsed to `none` on error
and `some isDir` on success; `getwd` is os.Getwd (`none` models failure);
`executable` is os.Executable; `callerFile` is the file reported by
runtime.Caller when it succeeds; `lookPath` is whether exec.LookPath
resolves a binary; `uvEnsure` is the result of EnsureUVInstalled (`none`
for success, `some msg` for its error). -/
structure Sys where
  getenv : String → String
  stat : String → Option Bool
  getwd : Option String
  executable : Option String
  callerFile : Option String
  lookPath : String → Bool
  uvEnsure : Option String

/-- fileExists from pyexec.go: os.Stat succeeds and the entry is not a
directory. -/
def fileExists (sys : Sys) (filename : String) : Bool :=
  match sys.stat filename with
  | none => false
  | some isDir => !isDir

/-- Go filepath.Abs: Clean for an absolute path, otherwise Join with the
working directory; fails exactly when os.Getwd fails. -/
def absPath (sys : Sys) (path : String) : Option String :=
  if isAbs path then some (clean path)
  else match sys.getwd with
    | some wd => some (joinPath2 wd path)
    | none => none

/-- The pattern `absPath, err := filepath.Abs(p); if err == nil { return
absPath }; return p` used on every return path of findScript. -/
def absOr (sys : Sys) (path : String) : String :=
  match absPath sys path with
  | some a => a
  | none => path

/-! ## findScript (pyexec.go lines 29-97) -/

/-- The script-specific environment variable name: strings.ToUpper applied
to the script name with '.' replaced by '_', plus "_PATH" (per character;
ASCII uppercasing as in Char.toUpper). -/
def specificEnvVar (scriptName : String) : String :=
  String.mk (scriptName.data.map (fun c => (if c = '.' then '_' else c).toUpper)) ++ ("_PATH")

/-- Step 2's loop over PYEXEC_SCRIPT_DIRS entries: the first directory whose
join with the script name exists wins, returned absolutized. -/
def searchDirsLoop (sys : Sys) (scriptName : String) : List String → Option String
  | [] => none
  | dir :: rest =>
    let scriptPath := joinPath2 dir scriptName
    if fileExists sys scriptPath then some (absOr sys scriptPath)
    else searchDirsLoop sys scriptName rest

/-- The possiblePaths slice assembled by steps 3-5: the bare name and its
"./" form, then the name next to the executable when os.Executable
succeeds, then the name next to the caller's source file and next to that
file's parent when runtime.Caller succeeds. -/
def possiblePaths (sys : Sys) (scriptName : String) : List String :=
  [scriptName, joinPath2 (".") scriptName]
  ++ (match sys.executable with
      | some execPath => [joinPath2 (dirPath execPath) scriptName]
      | none => [])
  ++ (match sys.callerFile with
      | some currentFile =>
          [joinPath2 (dirPath currentFile) scriptName,
           joinPath3 (dirPath currentFile) ("..") scriptName]
      | none => [])

/-- The final loop of findScript: each candidate is Cleaned, the first one
that exists is returned absolutized. -/
def pathsLoop (sys : Sys) : List String → Option String
  | [] => none
  | path :: rest =>
    let cleanPath := clean path
    if fileExists sys cleanPath then some (absOr sys cleanPath)
    else pathsLoop sys rest

/-- The not-found error message of findScript line 96, with the two
environment variable names interpolated. -/
def notFoundMsg (scriptName envVarSpecific envVarDirs : String) : String :=
  ("script '") ++ scriptName
    ++ ("' not found in any of the expected locations (checked env ")
    ++ envVarSpecific ++ (", env ") ++ envVarDirs
    ++ (", cwd, executable dir, caller dir)")

/-- Lookup strategies 2-5 of findScript: the code executed when step 1 (the
script-specific environment variable) does not return.  Split out because
the Go code is a sequence of early-return blocks. -/
def findScriptTail (sys : Sys) (scriptName : String) : Except String String :=
  let envVarSpecific := specificEnvVar scriptName
  let envVarDirs : String := ("PYEXEC_SCRIPT_DIRS")
  let dirsResult :=
    if sys.getenv envVarDirs ≠ ("") then
      searchDirsLoop sys scriptName (splitList (sys.getenv envVarDirs))
    else none
  match dirsResult with
  | some p => Except.ok p
  | none =>
    match pathsLoop sys (possiblePaths sys scriptName) with
    | some p => Except.ok p
    | none => Except.error (notFoundMsg scriptName envVarSpecific envVarDirs)

/-- findScript from pyexec.go: step 1 checks the script-specific
environment variable, then control falls through to strategies 2-5. -/
def findScript (sys : Sys) (scriptName : String) : Except String String :=
  let scriptPath := sys.getenv (specificEnvVar scriptName)
  if scriptPath ≠ ("") ∧ fileExists sys scriptPath = true then
    Except.ok (absOr sys scriptPath)
  else
    findScriptTail sys scriptName

/-! ## getPythonCommand (pyexec.go lines 101-122) -/

/-- The fall-through part of getPythonCommand: python3 if resolvable, else
python if resolvable, else the literal "python" default. -/
def defaultPythonCommand (sys : Sys) : String :=
  if sys.lookPath ("python3") then ("python3")
  else if sys.lookPath ("python") then ("python")
  else ("python")

/-- getPythonCommand from pyexec.go.  The first component is the returned
command; the second records whether the warning about an unresolvable
PYTHON_COMMAND was printed (the fmt.Printf branch was reached). -/
def getPythonCommand (sys : Sys) : String × Bool :=
  let pythonCmd := sys.getenv ("PYTHON_COMMAND")
  if pythonCmd ≠ ("") then
    if sys.lookPath pythonCmd then (pythonCmd, false)
    else (defaultPythonCommand sys, true)
  else (defaultPythonCommand sys, false)

/-! ## Argument marshaling (types.go, pyexec.go lines 139-145 and 184-190,
uvexec.go lines 24-30) -/

/-- Arg from types.go: a command-line argument as a key-value pair, order
preserving. -/
structure Arg where
  Key : String
  Value : String
deriving DecidableEq

/-- The body of the argument loop: append the key, then the value only when
it is non-empty. -/
def appendArg (cmdArgs : List String) (arg : Arg) : List String :=
  let withKey := cmdArgs ++ [arg.Key]
  if arg.Value ≠ ("") then withKey ++ [arg.Value] else withKey

/-- The cmdArgs slice built by ExecutePythonScript (lines 139-145):
"-u", the script path, then the marshaled pairs in input order. -/
def execCmdArgs (scriptPath : String) (args : List Arg) : List String :=
  args.foldl appendArg [("-u"), scriptPath]

/-- The cmdArgs slice built by ExecutePythonScriptRealtime (lines 184-190),
a verbatim duplicate of the buffered variant's loop. -/
def execRealtimeCmdArgs (scriptPath : String) (args : List Arg) : List String :=
  args.foldl appendArg [("-u"), scriptPath]

/-- The body of the uv variants' map-range loop (uvexec.go lines 25-30). -/
def appendMapArg (cmdArgs : List String) (kv : String × String) : List String :=
  let withKey := cmdArgs ++ [kv.1]
  if kv.2 ≠ ("") then withKey ++ [kv.2] else withKey

/-- The cmdArgs slice built by ExecutePythonScriptWithUV (uvexec.go lines
24-30): the fixed preamble "run", "--", "python", "-u", the script path,
then the map entries in the order `iter` in which Go's map range yields
them.  The Go specification leaves that order unspecified (the runtime
randomizes it), so `iter` may be any permutation of the map's entries. -/
def uvCmdArgs (scriptPath : String) (iter : List (String × String)) : List String :=
  iter.foldl appendMapArg [("run"), ("--"), ("python"), ("-u"), scriptPath]

/-! ## Command construction -/

/-- The exec.Cmd fields set before launch: the binary, its argument vector,
and the working directory assigned to cmd.Dir. -/
structure Cmd where
  prog : String
  args : List String
  dir : String
deriving DecidableEq

/-- ExecutePythonScript up to the subprocess launch (pyexec.go lines
130-148): resolve the script, pick the interpreter, build the argument
vector, and set the working directory to the script's directory. -/
def executePythonScriptCmd (sys : Sys) (scriptName : String) (args : List Arg) :
    Except String Cmd :=
  match findScript sys scriptName with
  | Except.error e => Except.error (("failed to find python script: ") ++ e)
  | Except.ok scriptPath =>
    Except.ok { prog := (getPythonCommand sys).1
              , args := execCmdArgs scriptPath args
              , dir := dirPath scriptPath }

/-- ExecutePythonScriptRealtime up to the subprocess launch (pyexec.go
lines 175-193), identical construction. -/
def executePythonScriptRealtimeCmd (sys : Sys) (scriptName : String) (args : List Arg) :
    Except String Cmd :=
  match findScript sys scriptName with
  | Except.error e => Except.error (("failed to find python script: ") ++ e)
  | Except.ok scriptPath =>
    Except.ok { prog := (getPythonCommand sys).1
              , args := execRealtimeCmdArgs scriptPath args
              , dir := dirPath scriptPath }

/-- ExecutePythonScriptWithUV up to the subprocess launch (uvexec.go lines
15-33): ensure uv, resolve the script, invoke the uv binary with the
delegated preamble, same working directory rule. -/
def executePythonScriptWithUVCmd (sys : Sys) (scriptName : String)
    (iter : List (String × String)) : Except String Cmd :=
  match sys.uvEnsure with
  | some e => Except.error (("failed to ensure uv is installed: ") ++ e)
  | none =>
    match findScript sys scriptName with
    | Except.error e => Except.error (("failed to find python script: ") ++ e)
    | Except.ok scriptPath =>
      Except.ok { prog := ("uv")
                , args := uvCmdArgs scriptPath iter
                , dir := dirPath scriptPath }

/-- ExecutePythonScriptRealtimeWithUV up to the subprocess launch
(uvexec.go lines 55-73), identical construction. -/
def executePythonScriptRealtimeWithUVCmd (sys : Sys) (scriptName : String)
    (iter : List (String × String)) : Except String Cmd :=
  match sys.uvEnsure with
  | some e => Except.error (("failed to ensure uv is installed: ") ++ e)
  | none =>
    match findScript sys scriptName with
    | Except.error e => Except.error (("failed to find python script: ") ++ e)
    | Except.ok scriptPath =>
      Except.ok { prog := ("uv")
                , args := uvCmdArgs scriptPath iter
                , dir := dirPath scriptPath }

/-! ## Result handling -/

/-- The observable outcome of a finished subprocess as cmd.Output() reports
it: whether it exited zero, the rendering of the Go error when it did not,
and the captured standard-output and standard-error bytes. -/
structure ProcOutcome where
  exitSuccess : Bool
  errText : String
  stdout : String
  stderr : String

/-- The return path of ExecutePythonScript after cmd.Output() (pyexec.go
lines 150-167): on success the stdout bytes and no error; on failure a nil
byte slice (`none`) and an error message bundling the script name, the
working directory, the underlying error, then stderr and stdout when
non-empty. -/
def bufferedReturn (scriptName dir : String) (o : ProcOutcome) :
    Option String × Option String :=
  if o.exitSuccess then (some o.stdout, none)
  else
    let errMsg := ("python script '") ++ scriptName ++ ("' (in dir ") ++ dir
      ++ (") execution failed: ") ++ o.errText
    let errMsg := if o.stderr ≠ ("") then errMsg ++ ("\nstderr: ") ++ o.stderr else errMsg
    let errMsg := if o.stdout.length > 0 then errMsg ++ ("\nstdout: ") ++ o.stdout else errMsg
    (none, some errMsg)

/-- The return path of ExecutePythonScriptWithUV after cmd.Output()
(uvexec.go lines 36-52), a verbatim duplicate of the buffered return
path. -/
def uvBufferedReturn (scriptName dir : String) (o : ProcOutcome) :
    Option String × Option String :=
  if o.exitSuccess then (some o.stdout, none)
  else
    let errMsg := ("python script '") ++ scriptName ++ ("' (in dir ") ++ dir
      ++ (") execution failed: ") ++ o.errText
    let errMsg := if o.stderr ≠ ("") then errMsg ++ ("\nstderr: ") ++ o.stderr else errMsg
    let errMsg := if o.stdout.length > 0 then errMsg ++ ("\nstdout: ") ++ o.stdout else errMsg
    (none, some errMsg)

/-- The return path of ExecutePythonScriptRealtime after cmd.Wait and
wg.Wait (pyexec.go lines 236-243): the accumulated stdout buffer is
returned on both paths, with an error message wrapping cmd.Wait's error on
failure. -/
def realtimeReturn (scriptName dir : String) (stdoutBuf : String)
    (cmdErr : Option String) : Option String × Option String :=
  match cmdErr with
  | some e =>
    (some stdoutBuf,
     some (("python script '") ++ scriptName ++ ("' (in dir ") ++ dir
       ++ (") exited with error: ") ++ e))
  | none => (some stdoutBuf, none)

/-- The return path of ExecutePythonScriptRealtimeWithUV (uvexec.go lines
117-124), a verbatim duplicate of the realtime return path. -/
def uvRealtimeReturn (scriptName dir : String) (stdoutBuf : String)
    (cmdErr : Option String) : Option String × Option String :=
  match cmdErr with
  | some e =>
    (some stdoutBuf,
     some (("python script '") ++ scriptName ++ ("' (in dir ") ++ dir
       ++ (") exited with error: ") ++ e))
  | none => (some stdoutBuf, none)

/-! ## Streaming phase model (pyexec.go lines 195-237)

The phase between cmd.Start and the return statement, modelled as an
interleaving of four concurrent activities over explicit state: the child
process (which writes its whole output to the OS pipes and then exits),
the two relay goroutines, and the parent's cmd.Wait.  The model encodes
the os/exec semantics that cmd.Wait, after seeing the child exit, closes
the parent's pipe ends, which discards data still buffered in a pipe and
makes subsequent reads by a relay goroutine fail (the Go documentation for
StdoutPipe states "Wait will close the pipe after seeing the command exit"
and that calling Wait before all reads have completed is incorrect). -/

/-- State of one streaming invocation: unread pipe contents, the tee
accumulation buffer, and the progress flags of the child, cmd.Wait, the
two relay goroutines, and the enclosing function. -/
structure StreamState where
  pipeOut : String
  pipeErr : String
  buf : String
  procExited : Bool
  waitDone : Bool
  outDone : Bool
  errDone : Bool
  returned : Bool
deriving DecidableEq

/-- Scheduler events: a read step of either relay goroutine, the child's
exit, cmd.Wait returning (and closing the pipes), and the function's
return (which the WaitGroup gates on both goroutines being done). -/
inductive StreamEv where
  | readOut
  | readErr
  | exitProc
  | waitRet
  | ret
deriving DecidableEq

/-- One interleaving step.  A read step consumes everything currently in
the pipe (tee-ing stdout into the buffer); on an empty pipe it reaches EOF
when the writer has exited, blocks when it has not, and fails (terminating
the goroutine without data, since close discarded the pipe contents) when
cmd.Wait has already closed the parent's pipe ends.  cmd.Wait can return
only after the child exits; the function can return only after cmd.Wait
and both wg.Done calls. -/
def streamStep (s : StreamState) : StreamEv → StreamState
  | StreamEv.readOut =>
    if s.outDone then s
    else if s.waitDone then { s with pipeOut := (""), outDone := true }
    else if s.pipeOut ≠ ("") then { s with buf := s.buf ++ s.pipeOut, pipeOut := ("") }
    else if s.procExited then { s with outDone := true }
    else s
  | StreamEv.readErr =>
    if s.errDone then s
    else if s.waitDone then { s with pipeErr := (""), errDone := true }
    else if s.pipeErr ≠ ("") then { s with pipeErr := ("") }
    else if s.procExited then { s with errDone := true }
    else s
  | StreamEv.exitProc => { s with procExited := true }
  | StreamEv.waitRet =>
    if s.procExited ∧ ¬ s.waitDone then { s with waitDone := true } else s
  | StreamEv.ret =>
    if s.waitDone ∧ s.outDone ∧ s.errDone then { s with returned := true } else s

/-- Initial streaming state: the child's entire standard output and
standard error sit in the freshly created pipes, nothing has run yet. -/
def initStream (stdoutStream stderrStream : String) : StreamState :=
  { pipeOut := stdoutStream, pipeErr := stderrStream, buf := ("")
  , procExited := false, waitDone := false
  , outDone := false, errDone := false, returned := false }

/-- Run a schedule of interleaving events from a state. -/
def runSched (s : StreamState) (evs : List StreamEv) : StreamState :=
  evs.foldl streamStep s

/-- A drain-first schedule: both goroutines read everything and reach EOF
before cmd.Wait closes the pipes. -/
def drainFirstSched : List StreamEv :=
  [StreamEv.readOut, StreamEv.readErr, StreamEv.exitProc,
   StreamEv.readOut, StreamEv.readErr, StreamEv.waitRet, StreamEv.ret]

/-- A wait-first schedule: the child exits and cmd.Wait closes the pipes
before either goroutine gets to read. -/
def waitFirstSched : List StreamEv :=
  [StreamEv.exitProc, StreamEv.waitRet, StreamEv.readOut, StreamEv.readErr,
   StreamEv.ret]

/-- Splitting a byte buffer into lines the way bufio.Scanner yields them:
newline-terminated lines without their newline, plus a final unterminated
line when present. -/
def splitLines (s : String) : List String :=
  if s = ("") then []
  else
    let parts := splitChar '\n' s
    match s.data.getLast? with
    | some '\n' => parts.dropLast
    | _ => parts

/-- The byte stream a script that prints these lines produces on standard
output. -/
def printLines (ls : List String) : String :=
  ls.foldr (fun l acc => l ++ ("\n") ++ acc) ("")

/-! ## Specification-side definitions

These restate, in the spec's own words, the properties the claims compare
the code against; they are deliberately written from the spec, not from
the source. -/

/-- Spec wording of the per-argument marshaling: the key token, followed by
the value token unless the value is the empty string. -/
def specArgTokens (arg : Arg) : List String :=
  if arg.Value = ("") then [arg.Key] else [arg.Key, arg.Value]

/-- Spec wording of the whole token sequence for direct execution: the
unbuffered flag, the script path, then the interleaved pairs in input
order. -/
def specMarshal (scriptPath : String) (args : List Arg) : List String :=
  [("-u"), scriptPath] ++ (args.map specArgTokens).flatten

/-- Per-entry marshaling of a (key, value) pair, spec wording, for the
delegated runner. -/
def specPairTokens (kv : String × String) : List String :=
  if kv.2 = ("") then [kv.1] else [kv.1, kv.2]

/-- Spec wording of interpreter selection: the override when set and
resolvable; otherwise python3, then python, then the python default, with
the warning flag set exactly when a set override was unresolvable. -/
def selectInterpreterSpec (sys : Sys) : String × Bool :=
  let pc := sys.getenv ("PYTHON_COMMAND")
  if pc ≠ ("") ∧ sys.lookPath pc = true then (pc, false)
  else if sys.lookPath ("python3") then (("python3"), pc != (""))
  else if sys.lookPath ("python") then (("python"), pc != (""))
  else (("python"), pc != (""))

/-- The later lookup strategies (2-5) all miss: every PYEXEC_SCRIPT_DIRS
entry joined with the script name is missing, and every cwd / executable /
caller candidate is missing. -/
def laterStrategiesMiss (sys : Sys) (scriptName : String) : Prop :=
  (∀ dir ∈ splitList (sys.getenv ("PYEXEC_SCRIPT_DIRS")),
     fileExists sys (joinPath2 dir scriptName) = false) ∧
  (∀ path ∈ possiblePaths sys scriptName, fileExists sys (clean path) = false)

/-! ## Helper lemmas -/

/-- Appending the empty string on the left is the identity. -/
theorem str_empty_append (s : String) : ("") ++ s = s := by
  cases s with
  | mk data => rfl

/-- A list is a Boolean prefix of itself followed by anything. -/
theorem hasPre_append (pat post : List Char) : hasPre pat (pat ++ post) = true := by
  induction pat with
  | nil => rfl
  | cons c cs ih => simp [hasPre, ih]

/-- A Boolean prefix survives extending the larger list on the right. -/
theorem hasPre_extend (pat s post : List Char) (h : hasPre pat s = true) :
    hasPre pat (s ++ post) = true := by
  induction pat generalizing s with
  | nil => rfl
  | cons p ps ih =>
    cases s with
    | nil => exact absurd h (by simp [hasPre])
    | cons c cs =>
      simp only [hasPre, Bool.and_eq_true] at h
      simp only [List.cons_append, hasPre, Bool.and_eq_true]
      exact ⟨h.1, ih cs h.2⟩

/-- The empty pattern is contained in every list. -/
theorem containsSubB_nil (s : List Char) : containsSubB [] s = true := by
  induction s with
  | nil => rfl
  | cons c cs ih => simp [containsSubB, hasPre]

/-- Every list contains itself. -/
theorem containsSubB_self (pat : List Char) : containsSubB pat pat = true := by
  cases pat with
  | nil => rfl
  | cons c cs =>
    have h := hasPre_append (c :: cs) []
    rw [List.append_nil] at h
    simp [containsSubB, h]

/-- Containment survives prepending on the left. -/
theorem containsSubB_append_right (pat pre s : List Char)
    (h : containsSubB pat s = true) : containsSubB pat (pre ++ s) = true := by
  induction pre with
  | nil => exact h
  | cons c cs ih =>
    simp only [List.cons_append, containsSubB, Bool.or_eq_true]
    exact Or.inr ih

/-- Containment survives appending on the right. -/
theorem containsSubB_append_left (pat s post : List Char)
    (h : containsSubB pat s = true) : containsSubB pat (s ++ post) = true := by
  induction s with
  | nil =>
    have hp : pat = [] := by
      cases pat with
      | nil => rfl
      | cons p ps => exact absurd h (by simp [containsSubB, hasPre])
    rw [hp, List.nil_append]
    exact containsSubB_nil post
  | cons c cs ih =>
    simp only [containsSubB, Bool.or_eq_true] at h
    simp only [List.cons_append, containsSubB, Bool.or_eq_true]
    cases h with
    | inl hl => exact Or.inl (hasPre_extend pat (c :: cs) post hl)
    | inr hr => exact Or.inr (ih hr)

/-- The argument loop of the direct runners is the spec interleaving. -/
theorem foldl_appendArg (args : List Arg) (init : List String) :
    args.foldl appendArg init = init ++ (args.map specArgTokens).flatten := by
  induction args generalizing init with
  | nil => simp
  | cons a as ih =>
    simp only [List.foldl_cons, List.map_cons, List.flatten, ih]
    by_cases h : a.Value = ("")
    · simp [appendArg, specArgTokens, h]
    · simp [appendArg, specArgTokens, h, List.append_assoc]

/-- The map-range loop of the delegated runners is the spec interleaving of
the iteration sequence. -/
theorem foldl_appendMapArg (iter : List (String × String)) (init : List String) :
    iter.foldl appendMapArg init = init ++ (iter.map specPairTokens).flatten := by
  induction iter generalizing init with
  | nil => simp
  | cons a as ih =>
    simp only [List.foldl_cons, List.map_cons, List.flatten, ih]
    by_cases h : a.2 = ("")
    · simp [appendMapArg, specPairTokens, h]
    · simp [appendMapArg, specPairTokens, h, List.append_assoc]

/-- The PYEXEC_SCRIPT_DIRS loop misses exactly when every join misses. -/
theorem searchDirsLoop_eq_none (sys : Sys) (scriptName : String) (dirs : List String) :
    searchDirsLoop sys scriptName dirs = none ↔
      ∀ dir ∈ dirs, fileExists sys (joinPath2 dir scriptName) = false := by
  induction dirs with
  | nil => simp [searchDirsLoop]
  | cons d rest ih =>
    simp only [searchDirsLoop]
    by_cases h : fileExists sys (joinPath2 d scriptName) = true
    · simp [h]
    · simp only [Bool.not_eq_true] at h
      simp [h, ih]

/-- The possiblePaths loop misses exactly when every cleaned candidate
misses. -/
theorem pathsLoop_eq_none (sys : Sys) (paths : List String) :
    pathsLoop sys paths = none ↔
      ∀ path ∈ paths, fileExists sys (clean path) = false := by
  induction paths with
  | nil => simp [pathsLoop]
  | cons p rest ih =>
    simp only [pathsLoop]
    by_cases h : fileExists sys (clean p) = true
    · simp [h]
    · simp only [Bool.not_eq_true] at h
      simp [h, ih]

/-- When the later strategies all miss, strategies 2-5 produce exactly the
not-found error. -/
theorem findScriptTail_eq_error (sys : Sys) (scriptName : String)
    (hmiss : laterStrategiesMiss sys scriptName) :
    findScriptTail sys scriptName =
      Except.error (notFoundMsg scriptName (specificEnvVar scriptName)
        ("PYEXEC_SCRIPT_DIRS")) := by
  have h1 : searchDirsLoop sys scriptName
      (splitList (sys.getenv ("PYEXEC_SCRIPT_DIRS"))) = none :=
    (searchDirsLoop_eq_none sys scriptName _).mpr hmiss.1
  have h2 : pathsLoop sys (possiblePaths sys scriptName) = none :=
    (pathsLoop_eq_none sys _).mpr hmiss.2
  unfold findScriptTail
  by_cases hd : sys.getenv ("PYEXEC_SCRIPT_DIRS") ≠ ("") <;> simp [hd, h1, h2]

/-- Conversely, a not-found failure of strategies 2-5 means they all
missed. -/
theorem findScriptTail_error_miss (sys : Sys) (scriptName : String) (m : String)
    (h : findScriptTail sys scriptName = Except.error m) :
    laterStrategiesMiss sys scriptName := by
  simp only [findScriptTail] at h
  cases hdres : (if sys.getenv ("PYEXEC_SCRIPT_DIRS") ≠ ("") then
      searchDirsLoop sys scriptName (splitList (sys.getenv ("PYEXEC_SCRIPT_DIRS")))
    else none) with
  | some p => rw [hdres] at h; exact absurd h (by simp)
  | none =>
    rw [hdres] at h
    cases hp : pathsLoop sys (possiblePaths sys scriptName) with
    | some q => rw [hp] at h; exact absurd h (by simp)
    | none =>
      refine ⟨?_, (pathsLoop_eq_none sys _).mp hp⟩
      by_cases hd : sys.getenv ("PYEXEC_SCRIPT_DIRS") ≠ ("")
      · rw [if_pos hd] at hdres
        exact (searchDirsLoop_eq_none sys scriptName _).mp hdres
      · simp only [Decidable.not_not] at hd
        intro dir hdir
        rw [hd] at hdir
        simp [splitList] at hdir

/-- The components of the streaming state that the stdout side can
observe: its pipe, the buffer, and the child / wait / own-termination
flags. -/
def obsOut (s : StreamState) : String × String × Bool × Bool × Bool :=
  (s.pipeOut, s.buf, s.procExited, s.waitDone, s.outDone)

/-- Evolution of the stdout-side observation under one event: the stderr
relay and the return event leave it unchanged. -/
def stepOutObs : String × String × Bool × Bool × Bool → StreamEv →
    String × String × Bool × Bool × Bool
  | (p, b, pe, w, o), StreamEv.readOut =>
    if o then (p, b, pe, w, o)
    else if w then ((""), b, pe, w, true)
    else if p ≠ ("") then ((""), b ++ p, pe, w, o)
    else if pe then (p, b, pe, w, true)
    else (p, b, pe, w, o)
  | t, StreamEv.readErr => t
  | (p, b, _, w, o), StreamEv.exitProc => (p, b, true, w, o)
  | (p, b, pe, w, o), StreamEv.waitRet =>
    if pe ∧ ¬ w then (p, b, pe, true, o) else (p, b, pe, w, o)
  | t, StreamEv.ret => t

/-- One interleaving step acts on the stdout-side observation through
stepOutObs alone; in particular it never reads the stderr pipe. -/
theorem obsOut_streamStep (s : StreamState) (ev : StreamEv) :
    obsOut (streamStep s ev) = stepOutObs (obsOut s) ev := by
  cases ev <;> simp only [streamStep, stepOutObs, obsOut] <;> split_ifs <;> rfl

/-- Running a whole schedule acts on the stdout-side observation through
stepOutObs alone. -/
theorem obsOut_runSched (s : StreamState) (evs : List StreamEv) :
    obsOut (runSched s evs) = evs.foldl stepOutObs (obsOut s) := by
  induction evs generalizing s with
  | nil => rfl
  | cons ev rest ih =>
    simp only [runSched, List.foldl_cons] at *
    rw [← obsOut_streamStep]
    exact ih (streamStep s ev)

/-! ## Concrete systems used by witnesses -/

/-- A system in which every lookup misses: no environment variables, no
stat-able files, no working directory, executable, or caller. -/
def sysAllMiss : Sys :=
  { getenv := fun _ => ("")
  , stat := fun _ => none
  , getwd := none
  , executable := none
  , callerFile := none
  , lookPath := fun _ => false
  , uvEnsure := none }

/-- A system in which HELLO_PY_PATH points at an existing regular file and
a file of the script's name also exists relative to the cwd. -/
def sysEnvHit : Sys :=
  { getenv := fun v => if v = ("HELLO_PY_PATH") then ("/opt/hello.py") else ("")
  , stat := fun p => if p = ("/opt/hello.py") then some false
            else (if p = ("hello.py") then some false else none)
  , getwd := some ("/work")
  , executable := none
  , callerFile := none
  , lookPath := fun c => c = ("python3")
  , uvEnsure := none }

/-- A system in which HELLO_PY_PATH is set but points at a missing file,
while a file of the script's name exists relative to the cwd. -/
def sysBadEnv : Sys :=
  { getenv := fun v => if v = ("HELLO_PY_PATH") then ("/gone.py") else ("")
  , stat := fun p => if p = ("hello.py") then some false else none
  , getwd := some ("/work")
  , executable := none
  , callerFile := none
  , lookPath := fun _ => false
  , uvEnsure := none }

/-! ## Claim theorems -/

/-- C1: for every ordered list of (key, value) argument pairs, the token
sequence ExecutePythonScript (and ExecutePythonScriptRealtime) passes to
the interpreter is exactly the unbuffered flag "-u", the resolved script
path, then for each pair in input order its key token followed by its
value token, the value token being omitted exactly when the value is the
empty string. -/
theorem C1_argument_order_preservation (scriptPath : String) (args : List Arg) :
    execCmdArgs scriptPath args = specMarshal scriptPath args ∧
    execRealtimeCmdArgs scriptPath args = specMarshal scriptPath args := by
  unfold execCmdArgs execRealtimeCmdArgs specMarshal
  exact ⟨foldl_appendArg args _, foldl_appendArg args _⟩

/-- C4: when the script-specific environment variable holds a path that
exists as a regular file and a file of the script's name also exists
relative to the cwd, findScript returns the environment variable's path
(absolutized), not the cwd match. -/
theorem C4_env_override_wins (sys : Sys) (scriptName p : String)
    (h1 : sys.getenv (specificEnvVar scriptName) = p)
    (h2 : p ≠ (""))
    (h3 : fileExists sys p = true)
    (hcwd : fileExists sys (clean scriptName) = true) :
    findScript sys scriptName = Except.ok (absOr sys p) := by
  simp only [findScript, h1]
  rw [if_pos ⟨h2, h3⟩]

/-- Witness for C4 at a concrete system where HELLO_PY_PATH points at
/opt/hello.py and hello.py also exists in the cwd. -/
theorem C4_env_override_wins_witness :
    findScript sysEnvHit ("hello.py") = Except.ok (absOr sysEnvHit ("/opt/hello.py")) :=
  C4_env_override_wins sysEnvHit ("hello.py") ("/opt/hello.py")
    rfl (by decide) (by decide) (by decide)

/-- C5: when none of the five lookup strategies yields an existing regular
file, findScript (and hence the execute operation) fails with an error
message that contains "not found", the script name, and the attempted
strategies: both environment-variable names plus cwd, executable dir and
caller dir. -/
theorem C5_not_found_reporting (sys : Sys) (scriptName : String)
    (h1 : sys.getenv (specificEnvVar scriptName) = ("") ∨
          fileExists sys (sys.getenv (specificEnvVar scriptName)) = false)
    (h2 : laterStrategiesMiss sys scriptName) :
    ∃ m, findScript sys scriptName = Except.error m ∧
      (∀ args, executePythonScriptCmd sys scriptName args
        = Except.error (("failed to find python script: ") ++ m)) ∧
      strContainsB m ("not found") = true ∧
      strContainsB m scriptName = true ∧
      strContainsB m (specificEnvVar scriptName) = true ∧
      strContainsB m ("PYEXEC_SCRIPT_DIRS") = true ∧
      strContainsB m ("cwd") = true ∧
      strContainsB m ("executable dir") = true ∧
      strContainsB m ("caller dir") = true := by
  have hfind : findScript sys scriptName =
      Except.error (notFoundMsg scriptName (specificEnvVar scriptName)
        ("PYEXEC_SCRIPT_DIRS")) := by
    simp only [findScript]
    rw [if_neg, findScriptTail_eq_error sys scriptName h2]
    rintro ⟨hne, hex⟩
    cases h1 with
    | inl h => exact hne h
    | inr h => rw [h] at hex; exact Bool.false_ne_true hex
  refine ⟨_, hfind, ?_, ?_, ?_, ?_, ?_, ?_, ?_, ?_⟩
  · intro args
    simp [executePythonScriptCmd, hfind]
  · simp only [strContainsB, notFoundMsg, String.data_append, List.append_assoc]
    exact containsSubB_append_right _ _ _ (containsSubB_append_right _ _ _
      (containsSubB_append_left _ _ _ (by decide)))
  · simp only [strContainsB, notFoundMsg, String.data_append, List.append_assoc]
    exact containsSubB_append_right _ _ _
      (containsSubB_append_left _ _ _ (containsSubB_self _))
  · simp only [strContainsB, notFoundMsg, String.data_append, List.append_assoc]
    exact containsSubB_append_right _ _ _ (containsSubB_append_right _ _ _
      (containsSubB_append_right _ _ _
        (containsSubB_append_left _ _ _ (containsSubB_self _))))
  · simp only [strContainsB, notFoundMsg, String.data_append, List.append_assoc]
    exact containsSubB_append_right _ _ _ (containsSubB_append_right _ _ _
      (containsSubB_append_right _ _ _ (containsSubB_append_right _ _ _
        (containsSubB_append_right _ _ _
          (containsSubB_append_left _ _ _ (containsSubB_self _))))))
  · simp only [strContainsB, notFoundMsg, String.data_append, List.append_assoc]
    exact containsSubB_append_right _ _ _ (containsSubB_append_right _ _ _
      (containsSubB_append_right _ _ _ (containsSubB_append_right _ _ _
        (containsSubB_append_right _ _ _ (containsSubB_append_right _ _ _
          (by decide))))))
  · simp only [strContainsB, notFoundMsg, String.data_append, List.append_assoc]
    exact containsSubB_append_right _ _ _ (containsSubB_append_right _ _ _
      (containsSubB_append_right _ _ _ (containsSubB_append_right _ _ _
        (containsSubB_append_right _ _ _ (containsSubB_append_right _ _ _
          (by decide))))))
  · simp only [strContainsB, notFoundMsg, String.data_append, List.append_assoc]
    exact containsSubB_append_right _ _ _ (containsSubB_append_right _ _ _
      (containsSubB_append_right _ _ _ (containsSubB_append_right _ _ _
        (containsSubB_append_right _ _ _ (containsSubB_append_right _ _ _
          (by decide))))))

/-- Witness for C5 at the system in which every strategy misses. -/
theorem C5_not_found_reporting_witness :
    ∃ m, findScript sysAllMiss ("hello.py") = Except.error m ∧
      (∀ args, executePythonScriptCmd sysAllMiss ("hello.py") args
        = Except.error (("failed to find python script: ") ++ m)) ∧
      strContainsB m ("not found") = true ∧
      strContainsB m ("hello.py") = true ∧
      strContainsB m (specificEnvVar ("hello.py")) = true ∧
      strContainsB m ("PYEXEC_SCRIPT_DIRS") = true ∧
      strContainsB m ("cwd") = true ∧
      strContainsB m ("executable dir") = true ∧
      strContainsB m ("caller dir") = true :=
  C5_not_found_reporting sysAllMiss ("hello.py") (Or.inl rfl) ⟨by decide, by decide⟩

/-- C6: getPythonCommand selects the PYTHON_COMMAND override when set and
resolvable, otherwise (warning exactly when a set override was
unresolvable) python3 if resolvable, otherwise python if resolvable,
otherwise the literal "python" default rather than failing. -/
theorem C6_interpreter_selection (sys : Sys) :
    getPythonCommand sys = selectInterpreterSpec sys := by
  unfold getPythonCommand selectInterpreterSpec defaultPythonCommand
  by_cases hpc : sys.getenv ("PYTHON_COMMAND") = ("")
  · by_cases h3 : sys.lookPath ("python3") = true
    · simp [hpc, h3]
    · by_cases h4 : sys.lookPath ("python") = true
      · simp [hpc, h3, h4]
      · simp [hpc, h3, h4]
  · by_cases hlk : sys.lookPath (sys.getenv ("PYTHON_COMMAND")) = true
    · simp [hpc, hlk]
    · simp only [Bool.not_eq_true] at hlk
      have hb : (sys.getenv ("PYTHON_COMMAND") != ("")) = true := by
        simp [bne_iff_ne, hpc]
      by_cases h3 : sys.lookPath ("python3") = true
      · simp [hpc, hlk, h3, hb]
      · simp only [Bool.not_eq_true] at h3
        by_cases h4 : sys.lookPath ("python") = true
        · simp [hpc, hlk, h3, h4, hb]
        · simp only [Bool.not_eq_true] at h4
          simp [hpc, hlk, h3, h4, hb]

/-- C10: when the script-specific environment variable is set but its path
does not exist as a regular file, findScript silently falls through to the
remaining strategies, and those fail exactly when every one of their
candidates misses. -/
theorem C10_bad_override_falls_through (sys : Sys) (scriptName p : String)
    (h1 : sys.getenv (specificEnvVar scriptName) = p)
    (h2 : fileExists sys p = false) :
    findScript sys scriptName = findScriptTail sys scriptName ∧
    ((∃ m, findScriptTail sys scriptName = Except.error m) ↔
      laterStrategiesMiss sys scriptName) := by
  constructor
  · simp only [findScript, h1]
    rw [if_neg]
    rintro ⟨-, hex⟩
    rw [h2] at hex
    exact Bool.false_ne_true hex
  · constructor
    · rintro ⟨m, hm⟩
      exact findScriptTail_error_miss sys scriptName m hm
    · intro hmiss
      exact ⟨_, findScriptTail_eq_error sys scriptName hmiss⟩

/-- Witness for C10 at a concrete system where HELLO_PY_PATH points at a
missing file while hello.py exists in the cwd. -/
theorem C10_bad_override_falls_through_witness :
    findScript sysBadEnv ("hello.py") = findScriptTail sysBadEnv ("hello.py") ∧
    ((∃ m, findScriptTail sysBadEnv ("hello.py") = Except.error m) ↔
      laterStrategiesMiss sysBadEnv ("hello.py")) :=
  C10_bad_override_falls_through sysBadEnv ("hello.py") ("/gone.py") rfl (by decide)

/-- C9: every execute operation, when it reaches the launch, sets the
subprocess working directory to filepath.Dir of the resolved script path;
the directory is computed from the resolved path alone. -/
theorem C9_working_directory (sys : Sys) (scriptName : String) (args : List Arg)
    (iter : List (String × String)) (c₁ c₂ c₃ c₄ : Cmd) :
    (executePythonScriptCmd sys scriptName args = Except.ok c₁ →
      ∃ p, findScript sys scriptName = Except.ok p ∧ c₁.dir = dirPath p) ∧
    (executePythonScriptRealtimeCmd sys scriptName args = Except.ok c₂ →
      ∃ p, findScript sys scriptName = Except.ok p ∧ c₂.dir = dirPath p) ∧
    (executePythonScriptWithUVCmd sys scriptName iter = Except.ok c₃ →
      ∃ p, findScript sys scriptName = Except.ok p ∧ c₃.dir = dirPath p) ∧
    (executePythonScriptRealtimeWithUVCmd sys scriptName iter = Except.ok c₄ →
      ∃ p, findScript sys scriptName = Except.ok p ∧ c₄.dir = dirPath p) := by
  refine ⟨?_, ?_, ?_, ?_⟩
  · intro h
    cases hf : findScript sys scriptName with
    | error e => rw [executePythonScriptCmd, hf] at h; exact absurd h (by simp)
    | ok p =>
      rw [executePythonScriptCmd, hf] at h
      simp only [Except.ok.injEq] at h
      exact ⟨p, rfl, by rw [← h]⟩
  · intro h
    cases hf : findScript sys scriptName with
    | error e => rw [executePythonScriptRealtimeCmd, hf] at h; exact absurd h (by simp)
    | ok p =>
      rw [executePythonScriptRealtimeCmd, hf] at h
      simp only [Except.ok.injEq] at h
      exact ⟨p, rfl, by rw [← h]⟩
  · intro h
    cases hu : sys.uvEnsure with
    | some e => rw [executePythonScriptWithUVCmd, hu] at h; exact absurd h (by simp)
    | none =>
      cases hf : findScript sys scriptName with
      | error e =>
        rw [executePythonScriptWithUVCmd, hu, hf] at h; exact absurd h (by simp)
      | ok p =>
        rw [executePythonScriptWithUVCmd, hu, hf] at h
        simp only [Except.ok.injEq] at h
        exact ⟨p, rfl, by rw [← h]⟩
  · intro h
    cases hu : sys.uvEnsure with
    | some e => rw [executePythonScriptRealtimeWithUVCmd, hu] at h; exact absurd h (by simp)
    | none =>
      cases hf : findScript sys scriptName with
      | error e =>
        rw [executePythonScriptRealtimeWithUVCmd, hu, hf] at h; exact absurd h (by simp)
      | ok p =>
        rw [executePythonScriptRealtimeWithUVCmd, hu, hf] at h
        simp only [Except.ok.injEq] at h
        exact ⟨p, rfl, by rw [← h]⟩

/-- Witness for C9: at a concrete system the buffered direct runner's
command has the resolved script's directory as working directory. -/
theorem C9_working_directory_witness :
    ∃ p, findScript sysEnvHit ("hello.py") = Except.ok p ∧
      (Cmd.mk ("python3") [("-u"), ("/opt/hello.py")] ("/opt")).dir = dirPath p :=
  (C9_working_directory sysEnvHit ("hello.py") [] []
    (Cmd.mk ("python3") [("-u"), ("/opt/hello.py")] ("/opt"))
    (Cmd.mk ("python3") [("-u"), ("/opt/hello.py")] ("/opt"))
    (Cmd.mk ("python3") [("-u"), ("/opt/hello.py")] ("/opt"))
    (Cmd.mk ("python3") [("-u"), ("/opt/hello.py")] ("/opt"))).1 rfl

/-- C3: evaluation of ExecutePythonScriptWithUV's command line at a
concrete input.  The fixed preamble "run", "--", "python", "-u", script
path always leads the token sequence, but two iteration sequences that are
permutations of one another — both legal orders for Go's map range over
the same map — yield different token sequences, so the emitted key order
is not deterministic per invocation as the claim requires. -/
theorem C3_uv_map_order_not_deterministic :
    ([(("-a"), ("1")), (("-b"), ("2"))] : List (String × String)).Perm
        [(("-b"), ("2")), (("-a"), ("1"))] ∧
    uvCmdArgs ("/srv/t.py") [(("-a"), ("1")), (("-b"), ("2"))]
      ≠ uvCmdArgs ("/srv/t.py") [(("-b"), ("2")), (("-a"), ("1"))] ∧
    (∀ (scriptPath : String) (iter : List (String × String)),
      (uvCmdArgs scriptPath iter).take 5
        = [("run"), ("--"), ("python"), ("-u"), scriptPath]) := by
  refine ⟨by decide, by decide, ?_⟩
  intro scriptPath iter
  rw [uvCmdArgs, foldl_appendMapArg]
  simpa using List.take_left ([("run"), ("--"), ("python"), ("-u"), scriptPath])
    ((iter.map specPairTokens).flatten)

/-- C7: evaluation of the streaming phase model at a script that prints
one line and exits zero.  Under a drain-first schedule the returned buffer
holds exactly the printed line, but under the equally legal schedule in
which cmd.Wait returns (closing the pipes, as os/exec documents) before
the stdout relay goroutine reads, the function still returns — with both
goroutines terminated — yet the buffer is empty: zero lines instead of
one, so the no-output-lost guarantee the claim states does not hold. -/
theorem C7_wait_close_race :
    (runSched (initStream ("hello\n") ("")) drainFirstSched).buf = ("hello\n") ∧
    splitLines ((runSched (initStream ("hello\n") ("")) drainFirstSched).buf)
      = [("hello")] ∧
    (runSched (initStream ("hello\n") ("")) drainFirstSched).returned = true ∧
    (runSched (initStream ("hello\n") ("")) waitFirstSched).returned = true ∧
    (runSched (initStream ("hello\n") ("")) waitFirstSched).outDone = true ∧
    (runSched (initStream ("hello\n") ("")) waitFirstSched).errDone = true ∧
    (runSched (initStream ("hello\n") ("")) waitFirstSched).buf = ("") ∧
    splitLines ((runSched (initStream ("hello\n") ("")) waitFirstSched).buf)
      = [] := by decide

/-- A failed run that printed a known string to standard output first. -/
def failedOutcome : ProcOutcome :=
  { exitSuccess := false, errText := ("exit status 1")
  , stdout := ("KNOWN\n"), stderr := ("") }

/-- C2 counterexample: at a failed run whose captured standard output is
the non-empty string "KNOWN\n", the buffered ExecutePythonScript returns a
nil byte slice alongside its non-nil error, so no returned bytes contain
the known string — contradicting the claim for the buffered operation. -/
theorem C2_counterexample_buffered_returns_nil :
    (¬ ∃ bs, (bufferedReturn ("t.py") ("/d") failedOutcome).1 = some bs ∧
        strContainsB bs ("KNOWN") = true) ∧
    (bufferedReturn ("t.py") ("/d") failedOutcome).2 ≠ none ∧
    0 < failedOutcome.stdout.length ∧
    failedOutcome.exitSuccess = false := by
  refine ⟨?_, by decide, by decide, rfl⟩
  rintro ⟨bs, hbs, -⟩
  have h1 : (bufferedReturn ("t.py") ("/d") failedOutcome).1 = none := rfl
  rw [h1] at hbs
  exact Option.noConfusion hbs

/-- Under a drain-first schedule the streaming buffer accumulates the
child's entire standard output. -/
theorem drainFirst_buf (S E : String) :
    (runSched (initStream S E) drainFirstSched).buf = S := by
  by_cases hS : S = ("") <;> by_cases hE : E = ("") <;>
    simp [runSched, drainFirstSched, initStream, streamStep, hS, hE, str_empty_append]

/-- C2 amended: on non-zero exit the streaming operation returns the
accumulated stdout buffer (the whole printed output when the relay has
drained the pipe) alongside the non-nil error, while the buffered
operation returns a nil byte slice and instead embeds the partial stdout
in the error message. -/
theorem C2_amended_partial_output (scriptName dir stdoutBuf e : String)
    (o : ProcOutcome) (S E : String)
    (hfail : o.exitSuccess = false) (hout : 0 < o.stdout.length) :
    (realtimeReturn scriptName dir stdoutBuf (some e)).1 = some stdoutBuf ∧
    (realtimeReturn scriptName dir stdoutBuf (some e)).2 ≠ none ∧
    (uvRealtimeReturn scriptName dir stdoutBuf (some e)).1 = some stdoutBuf ∧
    (runSched (initStream S E) drainFirstSched).buf = S ∧
    (bufferedReturn scriptName dir o).1 = none ∧
    (∃ m, (bufferedReturn scriptName dir o).2 = some m ∧
      strContainsB m o.stdout = true) := by
  have hmsg : ∃ base, (bufferedReturn scriptName dir o).2
      = some (base ++ ("\nstdout: ") ++ o.stdout) := by
    unfold bufferedReturn
    rw [if_neg (by simp [hfail])]
    by_cases hs : o.stderr ≠ ("")
    · exact ⟨("python script '") ++ scriptName ++ ("' (in dir ") ++ dir
        ++ (") execution failed: ") ++ o.errText ++ ("\nstderr: ") ++ o.stderr,
        by simp only [if_pos hs, if_pos hout]⟩
    · exact ⟨("python script '") ++ scriptName ++ ("' (in dir ") ++ dir
        ++ (") execution failed: ") ++ o.errText,
        by simp only [if_neg hs, if_pos hout]⟩
  obtain ⟨base, hb⟩ := hmsg
  refine ⟨rfl, by simp [realtimeReturn], rfl, drainFirst_buf S E, ?_, ?_⟩
  · simp [bufferedReturn, hfail]
  · refine ⟨_, hb, ?_⟩
    simp only [strContainsB, String.data_append, List.append_assoc]
    exact containsSubB_append_right _ _ _
      (containsSubB_append_right _ _ _ (containsSubB_self _))

/-- Witness for the amended C2 at concrete inputs. -/
theorem C2_amended_partial_output_witness :
    (realtimeReturn ("t.py") ("/d") ("KNOWN\n") (some ("exit status 1"))).1
      = some ("KNOWN\n") ∧
    (realtimeReturn ("t.py") ("/d") ("KNOWN\n") (some ("exit status 1"))).2 ≠ none ∧
    (uvRealtimeReturn ("t.py") ("/d") ("KNOWN\n") (some ("exit status 1"))).1
      = some ("KNOWN\n") ∧
    (runSched (initStream ("KNOWN\n") ("")) drainFirstSched).buf = ("KNOWN\n") ∧
    (bufferedReturn ("t.py") ("/d") failedOutcome).1 = none ∧
    (∃ m, (bufferedReturn ("t.py") ("/d") failedOutcome).2 = some m ∧
      strContainsB m failedOutcome.stdout = true) :=
  C2_amended_partial_output ("t.py") ("/d") ("KNOWN\n") ("exit status 1")
    failedOutcome ("KNOWN\n") ("") rfl (by decide)

/-- C8: every execute operation's returned byte slice is built from the
child's standard output alone — the buffered return value is the captured
stdout on success and nil on failure, the streaming return value is the
stdout accumulation buffer, and the buffer a schedule produces is
unchanged when the stderr stream is replaced by any other stream. -/
theorem C8_stdout_only_returned (scriptName dir : String) (o : ProcOutcome)
    (stdoutBuf : String) (cmdErr : Option String)
    (evs : List StreamEv) (S E E' : String) :
    (bufferedReturn scriptName dir o).1
      = (if o.exitSuccess then some o.stdout else none) ∧
    (uvBufferedReturn scriptName dir o).1
      = (if o.exitSuccess then some o.stdout else none) ∧
    (realtimeReturn scriptName dir stdoutBuf cmdErr).1 = some stdoutBuf ∧
    (uvRealtimeReturn scriptName dir stdoutBuf cmdErr).1 = some stdoutBuf ∧
    (runSched (initStream S E) evs).buf = (runSched (initStream S E') evs).buf := by
  refine ⟨?_, ?_, ?_, ?_, ?_⟩
  · by_cases h : o.exitSuccess = true <;> simp [bufferedReturn, h]
  · by_cases h : o.exitSuccess = true <;> simp [uvBufferedReturn, h]
  · cases cmdErr <;> rfl
  · cases cmdErr <;> rfl
  · have h1 := obsOut_runSched (initStream S E) evs
    have h2 := obsOut_runSched (initStream S E') evs
    have heq : obsOut (initStream S E) = obsOut (initStream S E') := rfl
    have hfin : obsOut (runSched (initStream S E) evs)
        = obsOut (runSched (initStream S E') evs) := by rw [h1, h2, heq]
    exact congrArg (fun t => t.2.1) hfin

end Pyexec
